import Mathlib

/-!
# Verification of the credential and session lifecycle of `backend-project`

Shallow embedding of the user controller (`registerUser`, `loginUser`,
`logoutUser`, `refreshAccessToken`, `changeCurrentPassword`,
`updateAccountDetails`, `updateUserAvatar`, `updateUserCoverImage`),
the auth middleware (`verifyJWT`) and the user model of the repository.

Modelling conventions:
* A MongoDB collection of users is a `List StoredUser`; `User.findById`
  is `List.find?` on the id, `User.findOne` with an `$or` filter follows
  Mongoose's filter casting (keys whose value is `undefined` are dropped
  from the filter, so an `$or` branch with an `undefined` value becomes
  the empty filter, which matches every document).
* `user.save()` writes the (mutated) document back into the collection.
* `findByIdAndUpdate` with a `$set` whose values may be `undefined`
  follows Mongoose (v6 and later) update casting: keys whose value is
  `undefined` are stripped from the update document before it is applied.
* A JWT is modelled structurally: HS256 signing is deterministic, so two
  token strings are byte-identical exactly when payload, iat, exp and
  signing key coincide.  An arbitrary client-supplied string that is not
  a signed token is `Tok.garbage`.
* bcrypt hashing is modelled as an injective tagging of the plaintext;
  `bcrypt.compare` re-verifies against that tag.
* Express semantics for a thrown error: the request aborts, but database
  writes performed before the `throw` persist.  Every operation therefore
  returns its post-state together with `Except ApiErr result`.
* The local temp-file store written by multer is a `List String` of paths;
  `fs.unlinkSync` fails when the path is absent.
-/

/-- Errors produced via `new ApiError(statusCode, message)`. -/
structure ApiErr where
  statusCode : Nat
  message : String
deriving DecidableEq

/-- Process-wide token configuration (`ACCESS_TOKEN_SECRET`,
`REFRESH_TOKEN_SECRET`, `ACCESS_TOKEN_EXPIRY`, `REFRESH_TOKEN_EXPIRY`). -/
structure Env where
  accessTokenSecret : String
  refreshTokenSecret : String
  accessTokenExpiry : Nat
  refreshTokenExpiry : Nat
deriving DecidableEq

/-- Payload of a signed token: `generateAccessToken` embeds
`{_id, email, username, fullName}`, `generateRefreshToken` only `{_id}`. -/
inductive TokenPayload where
  | access (id : Nat) (email : String) (username : String) (fullName : String)
  | refresh (id : Nat)
deriving DecidableEq

/-- The `_id` claim of a decoded payload. -/
def TokenPayload.userId : TokenPayload → Nat
  | .access i _ _ _ => i
  | .refresh i => i

/-- A signed JWT.  HS256 signing is deterministic, so structural equality
on payload, iat, exp and key is string equality of the encoded tokens. -/
structure Jwt where
  payload : TokenPayload
  iat : Nat
  exp : Nat
  key : String
deriving DecidableEq

/-- A string a client may present where a token is expected: either a
genuine signed token or an arbitrary string that is not one. -/
inductive Tok where
  | jwt (t : Jwt)
  | garbage (s : String)
deriving DecidableEq

/-- JS falsiness of an optional string: `undefined` and `""` are falsy. -/
def strFalsy : Option String → Bool
  | none => true
  | some s => s = ""

/-- JS falsiness of an optional token string. -/
def tokFalsy : Option Tok → Bool
  | none => true
  | some (.garbage s) => s = ""
  | some (.jwt _) => false

/-- Errors of `jwt.verify`. -/
inductive JwtError where
  | expired
  | invalidSignature
  | malformed
deriving DecidableEq

/-- The `error.message` carried by each `jsonwebtoken` error. -/
def JwtError.msg : JwtError → String
  | .expired => "jwt expired"
  | .invalidSignature => "invalid signature"
  | .malformed => "jwt malformed"

/-- Model of `jwt.verify(token, secret)` at clock time `now`: fails on a string
that is not a token, on a wrong signing key, and past the embedded
expiry; otherwise returns the decoded payload. -/
def jwtVerify (tok : Tok) (secret : String) (now : Nat) : Except JwtError TokenPayload :=
  match tok with
  | .garbage _ => .error .malformed
  | .jwt t =>
    if t.key ≠ secret then .error .invalidSignature
    else if t.exp ≤ now then .error .expired
    else .ok t.payload

/-- bcrypt.hash modelled as injective tagging of the plaintext. -/
def bcryptHash (pw : String) : String := "$2b$10$" ++ pw

/-- bcrypt.compare: does the plaintext verify against the stored hash? -/
def bcryptCompare (pw hsh : String) : Bool := hsh = bcryptHash pw

/-- A persisted user document (the Mongoose `User` model).  `password`
holds the bcrypt hash (the pre-save hook hashes before any store). -/
structure StoredUser where
  id : Nat
  username : String
  email : String
  fullname : String
  password : String
  refreshToken : Option Jwt
  avatar : String
  coverImage : String
deriving DecidableEq

/-- Model of `User.findById(id)`. -/
def findById (db : List StoredUser) (i : Nat) : Option StoredUser :=
  db.find? (fun u => u.id = i)

/-- Model of `user.save()`: write the mutated document back by id. -/
def saveUser (db : List StoredUser) (u : StoredUser) : List StoredUser :=
  db.map (fun v => if v.id = u.id then u else v)

/-- One `$or` branch `{field: value}` after Mongoose filter casting: a
branch whose value is `undefined` is stripped to the empty filter `{}`,
which matches every document. -/
def orBranchMatches (stored : String) (given : Option String) : Bool :=
  match given with
  | none => true
  | some s => stored = s

/-- Model of `User.findOne({$or: [{username}, {email}]})`. -/
def findOneByUsernameOrEmail (db : List StoredUser)
    (username email : Option String) : Option StoredUser :=
  db.find? (fun u =>
    orBranchMatches u.username username || orBranchMatches u.email email)

/-- Does any document match the `$or` duplicate filter? -/
def existsByUsernameOrEmail (db : List StoredUser)
    (username email : Option String) : Bool :=
  (findOneByUsernameOrEmail db username email).isSome

/-- Model of `user.generateAccessToken()`: signs `{_id, email, username, fullName}`
with `ACCESS_TOKEN_SECRET` and the configured short expiry. -/
def generateAccessToken (env : Env) (now : Nat) (u : StoredUser) : Jwt :=
  { payload := .access u.id u.email u.username u.fullname
    iat := now
    exp := now + env.accessTokenExpiry
    key := env.accessTokenSecret }

/-- Model of `user.generateRefreshToken()`: signs `{_id}` with
`REFRESH_TOKEN_SECRET` and the configured long expiry. -/
def generateRefreshToken (env : Env) (now : Nat) (u : StoredUser) : Jwt :=
  { payload := .refresh u.id
    iat := now
    exp := now + env.refreshTokenExpiry
    key := env.refreshTokenSecret }

/-- The object returned by `generateAccessAndRefreshTokens`: its fields
are named `accessToken` and `refreshToken`. -/
structure GenTokens where
  accessToken : Jwt
  refreshToken : Jwt
deriving DecidableEq

/-- Model of `generateAccessAndRefreshTokens(userId)`: load the user, create both
tokens, store the refresh token on the user and save
(`validateBeforeSave: false`; the password is unmodified so the pre-save
hook does not re-hash).  Any error inside is caught and rethrown as a
500 `ApiError`. -/
def generateAccessAndRefreshTokens (env : Env) (now : Nat)
    (db : List StoredUser) (userId : Nat) :
    List StoredUser × Except ApiErr GenTokens :=
  match findById db userId with
  | none =>
    (db, .error ⟨500, "Something went wrong while generating Access and Refresh Token"⟩)
  | some user =>
    let accessToken := generateAccessToken env now user
    let refreshToken := generateRefreshToken env now user
    let db1 := saveUser db { user with refreshToken := some refreshToken }
    (db1, .ok ⟨accessToken, refreshToken⟩)

/-- A user object as serialized into a response after a `.select`
projection.  An excluded field is `none`; an included field carries the
stored value (for `refreshToken`, the stored value is itself nullable). -/
structure UserView where
  id : Nat
  username : String
  email : String
  fullname : String
  avatar : String
  coverImage : String
  password : Option String
  refreshToken : Option (Option Jwt)
deriving DecidableEq

/-- Projection `.select("-password -refreshToken")`. -/
def viewMinusPasswordRefresh (u : StoredUser) : UserView :=
  { id := u.id, username := u.username, email := u.email,
    fullname := u.fullname, avatar := u.avatar, coverImage := u.coverImage,
    password := none, refreshToken := none }

/-- Projection `.select("-password")`. -/
def viewMinusPassword (u : StoredUser) : UserView :=
  { id := u.id, username := u.username, email := u.email,
    fullname := u.fullname, avatar := u.avatar, coverImage := u.coverImage,
    password := none, refreshToken := some u.refreshToken }

/-- Model of `fs.unlinkSync(path)`: removes the file, throws `ENOENT` when absent. -/
def unlinkSync (fs : List String) (p : String) : Except String (List String) :=
  if p ∈ fs then .ok (fs.filter (fun q => q ≠ p)) else .error "ENOENT"

/-- Model of `uploadOnCloudinary(localFilePath)`: `null` when no path was given;
on upload success returns the hosted url and keeps the local file; on
upload failure deletes the local file and returns `undefined`.  The
external service is the oracle `cloud : String → Option String`. -/
def uploadOnCloudinary (cloud : String → Option String)
    (fs : List String) (p : Option String) : List String × Option String :=
  match p with
  | none => (fs, none)
  | some path =>
    match cloud path with
    | some url => (fs, some url)
    | none => (fs.filter (fun q => q ≠ path), none)

/-- JS `String.prototype.trim()`: strip whitespace from both ends. -/
def jsTrim (s : String) : String :=
  String.mk (((s.data.dropWhile Char.isWhitespace).reverse.dropWhile Char.isWhitespace).reverse)

/-- JS `String.prototype.toLowerCase()`. -/
def jsToLower (s : String) : String :=
  String.mk (s.data.map Char.toLower)

/-- JS `String.prototype.includes(c)` for a single character. -/
def jsIncludesChar (s : String) (c : Char) : Bool :=
  s.data.contains c

/-- JS truthiness projection of an optional string: `undefined` and the
empty string both behave as absent. -/
def presentStr (o : Option String) : Option String :=
  match o with
  | none => none
  | some s => if s = "" then none else some s

/-- A fresh `_id` for `User.create`. -/
def freshId (db : List StoredUser) : Nat :=
  (db.map (fun u => u.id)).foldr max 0 + 1

/-- Request body and multer files of `POST /register`. -/
structure RegisterReq where
  username : Option String
  email : Option String
  fullname : Option String
  password : Option String
  avatarPath : Option String
  coverPath : Option String

/-- Success response of `registerUser`: HTTP 201 with
`ApiResponse(200, createdUser, ...)`. -/
structure RegisterOk where
  httpStatus : Nat
  bodyStatusCode : Nat
  user : UserView
  message : String
deriving DecidableEq

/-- The validation `[fullname, email, username, password].some((field) =>
field?.trim() === "")`: a `undefined` field short-circuits `?.` to
`undefined`, which is not `""`, so a missing field does not trip it. -/
def someEmptyAfterTrim (r : RegisterReq) : Bool :=
  [r.fullname, r.email, r.username, r.password].any (fun f =>
    match f with
    | some s => jsTrim s = ""
    | none => false)

/-- The duplicate-cleanup branch of `registerUser`: unlink the avatar
temp file and the cover temp file when their paths are present, then
fail with 409.  A failing `unlinkSync` escapes as an uncaught error. -/
def registerCleanupConflict (db : List StoredUser) (fs : List String)
    (avatarPath coverPath : Option String) :
    List StoredUser × List String × Except ApiErr RegisterOk :=
  match presentStr avatarPath with
  | some ap =>
    match unlinkSync fs ap with
    | .error e => (db, fs, .error ⟨500, e⟩)
    | .ok fs1 =>
      match presentStr coverPath with
      | some cp =>
        match unlinkSync fs1 cp with
        | .error e => (db, fs1, .error ⟨500, e⟩)
        | .ok fs2 => (db, fs2, .error ⟨409, "User with email or username already exists"⟩)
      | none => (db, fs1, .error ⟨409, "User with email or username already exists"⟩)
  | none =>
    match presentStr coverPath with
    | some cp =>
      match unlinkSync fs cp with
      | .error e => (db, fs, .error ⟨500, e⟩)
      | .ok fs1 => (db, fs1, .error ⟨409, "User with email or username already exists"⟩)
    | none => (db, fs, .error ⟨409, "User with email or username already exists"⟩)

/-- Model of `registerUser`: validate, check duplicates (cleaning up temp files
before the 409), upload the avatar (mandatory) and cover (optional),
create the user with the bcrypt-hashed password and lowercased username,
and answer with the created user minus password and refreshToken. -/
def registerUser (cloud : String → Option String) (db : List StoredUser)
    (fs : List String) (r : RegisterReq) :
    List StoredUser × List String × Except ApiErr RegisterOk :=
  if someEmptyAfterTrim r then
    (db, fs, .error ⟨400, "All fields are required"⟩)
  else
    match r.email with
    | none =>
      -- `email.includes('@')` on `undefined` throws a TypeError, which
      -- surfaces through the default error handler, not as an ApiError 400.
      (db, fs, .error ⟨500, "Cannot read properties of undefined (reading includes)"⟩)
    | some email =>
      if ¬ jsIncludesChar email '@' then
        (db, fs, .error ⟨405, "Please enter a valid email address"⟩)
      else if existsByUsernameOrEmail db r.username (some email) then
        registerCleanupConflict db fs r.avatarPath r.coverPath
      else
        match presentStr r.avatarPath with
        | none => (db, fs, .error ⟨400, "Avatar file is required"⟩)
        | some avatarPath =>
          let up1 := uploadOnCloudinary cloud fs (some avatarPath)
          let up2 := uploadOnCloudinary cloud up1.1 (presentStr r.coverPath)
          match up1.2 with
          | none => (db, up2.1, .error ⟨400, "Failed to upload avatar file"⟩)
          | some avatarUrl =>
            match r.username, r.fullname, r.password with
            | some username, some fullname, some password =>
              let newUser : StoredUser :=
                { id := freshId db
                  username := jsToLower username
                  email := email
                  fullname := fullname
                  password := bcryptHash password
                  refreshToken := none
                  avatar := avatarUrl
                  coverImage := (up2.2).getD "" }
              (db ++ [newUser], up2.1,
                .ok ⟨201, 200, viewMinusPasswordRefresh newUser, "User registered successfully!"⟩)
            | _, _, _ =>
              -- a field that skipped the `?.trim()` check because it was
              -- `undefined` fails the schema's `required` validation at
              -- `User.create` and surfaces through the default handler.
              (db, up2.1, .error ⟨500, "User validation failed"⟩)

/-- Request body of `POST /login`. -/
structure LoginReq where
  username : Option String
  password : Option String
  email : Option String

/-- Success response of `loginUser`: both tokens as cookies and, in the
body, the user minus secrets together with both tokens. -/
structure LoginOk where
  cookieAccessToken : Jwt
  cookieRefreshToken : Jwt
  user : Option UserView
  accessToken : Jwt
  refreshToken : Jwt
  message : String
deriving DecidableEq

/-- Model of `loginUser`: find the account by username or email, verify the
password, issue and persist a fresh token pair, and deliver it via
cookies and body. -/
def loginUser (env : Env) (now : Nat) (db : List StoredUser) (r : LoginReq) :
    List StoredUser × Except ApiErr LoginOk :=
  if strFalsy r.username ∧ strFalsy r.email then
    (db, .error ⟨400, "Username or Email is required"⟩)
  else
    match findOneByUsernameOrEmail db r.username r.email with
    | none => (db, .error ⟨404, "User does not exist"⟩)
    | some user =>
      match r.password with
      | none =>
        -- `bcrypt.compare(undefined, hash)` rejects; surfaces through the
        -- default error handler.
        (db, .error ⟨500, "data and hash arguments required"⟩)
      | some pw =>
        if ¬ bcryptCompare pw user.password then
          (db, .error ⟨401, "Invalid User Credentials"⟩)
        else
          match generateAccessAndRefreshTokens env now db user.id with
          | (db1, .error e) => (db1, .error e)
          | (db1, .ok gen) =>
            (db1, .ok
              { cookieAccessToken := gen.accessToken
                cookieRefreshToken := gen.refreshToken
                user := (findById db1 user.id).map viewMinusPasswordRefresh
                accessToken := gen.accessToken
                refreshToken := gen.refreshToken
                message := "User Logged In Successfully" })

/-- Success response of `logoutUser`: both cookies cleared. -/
structure LogoutOk where
  clearedCookies : List String
  bodyStatusCode : Nat
  message : String
deriving DecidableEq

/-- Model of `logoutUser`: `findByIdAndUpdate(req.user._id, {$set: {refreshToken:
undefined}}, {new: true})`.  Mongoose strips keys whose value is
`undefined` from the update document, so the `$set` is empty and the
stored document is left unchanged. -/
def logoutUser (db : List StoredUser) (_userId : Nat) :
    List StoredUser × Except ApiErr LogoutOk :=
  (db, .ok ⟨["accessToken", "refreshToken"], 200, "User logged out successfully"⟩)

/-- Cookie and body of `POST /refresh-token`. -/
structure RefreshReq where
  cookieRefreshToken : Option Tok
  bodyRefreshToken : Option Tok

/-- Success response of `refreshAccessToken`.  The refresh-token cookie
and body field carry `newRefreshToken`, an `Option` because that JS
binding can be `undefined`. -/
structure RefreshOk where
  cookieAccessToken : Jwt
  cookieRefreshToken : Option Jwt
  accessToken : Jwt
  refreshToken : Option Jwt
  message : String
deriving DecidableEq

/-- The extraction `incomingRefreshToken = req.cookies.refreshToken || req.body.refreshToken`,
followed by the `if (!incomingRefreshToken)` falsiness guard. -/
def incomingRefresh (r : RefreshReq) : Option Tok :=
  let t := if tokFalsy r.cookieRefreshToken then r.bodyRefreshToken else r.cookieRefreshToken
  if tokFalsy t then none else t

/-- Does the incoming token string equal the stored `user.refreshToken`
string?  A garbage string never equals a signed token string, and
nothing equals a missing stored token. -/
def tokEqStored (tok : Tok) (stored : Option Jwt) : Bool :=
  match tok, stored with
  | .jwt t, some t1 => t = t1
  | _, _ => false

/-- Model of `refreshAccessToken`: take the refresh token from cookie or body,
verify it, load the account, enforce equality with the stored token,
then issue and persist a fresh pair.  Every error raised inside the
`try` is rethrown as a 401 with the original message.  The response
destructures `{accessToken, newRefreshToken}` from a value whose fields
are named `accessToken` and `refreshToken`, so `newRefreshToken` is
`undefined` (`none`): that is what gets delivered in the refreshToken
cookie and body field. -/
def refreshAccessToken (env : Env) (now : Nat) (db : List StoredUser)
    (r : RefreshReq) : List StoredUser × Except ApiErr RefreshOk :=
  match incomingRefresh r with
  | none => (db, .error ⟨401, "Unauthorized request - No Refresh Token Provided"⟩)
  | some tok =>
    match jwtVerify tok env.refreshTokenSecret now with
    | .error e => (db, .error ⟨401, e.msg⟩)
    | .ok payload =>
      match findById db payload.userId with
      | none => (db, .error ⟨401, "Invalid Refresh Token - User not found"⟩)
      | some user =>
        if ¬ tokEqStored tok user.refreshToken then
          (db, .error ⟨401, "Refresh Token is Expired or Already Used"⟩)
        else
          match generateAccessAndRefreshTokens env now db user.id with
          | (db1, .error e) => (db1, .error ⟨401, e.message⟩)
          | (db1, .ok gen) =>
            let newRefreshToken : Option Jwt := none
            (db1, .ok
              { cookieAccessToken := gen.accessToken
                cookieRefreshToken := newRefreshToken
                accessToken := gen.accessToken
                refreshToken := newRefreshToken
                message := "Access token refreshed successfully" })

/-- Plain `{statusCode, message}` success body. -/
structure SimpleOk where
  statusCode : Nat
  message : String
deriving DecidableEq

/-- Model of `changeCurrentPassword`: verify the old password against the stored
hash (400 on mismatch), then set and save the new password; the pre-save
hook re-hashes it because the field was modified.  No other field of the
document is touched. -/
def changeCurrentPassword (db : List StoredUser) (userId : Nat)
    (oldPassword newPassword : Option String) :
    List StoredUser × Except ApiErr SimpleOk :=
  match findById db userId with
  | none =>
    -- `user.isPasswordCorrect` on `null` throws; default error handler.
    (db, .error ⟨500, "Cannot read properties of null (reading isPasswordCorrect)"⟩)
  | some user =>
    match oldPassword with
    | none => (db, .error ⟨500, "data and hash arguments required"⟩)
    | some old =>
      if ¬ bcryptCompare old user.password then
        (db, .error ⟨400, "Invalid Old Password"⟩)
      else
        match newPassword with
        | none => (db, .error ⟨500, "data and salt arguments required"⟩)
        | some newPw =>
          (saveUser db { user with password := bcryptHash newPw },
            .ok ⟨200, "Password Changed Successfully"⟩)

/-- Credentials attached to a protected request: the `accessToken`
cookie, and the `Authorization` header with its `Bearer ` prefix already
stripped by `.replace("Bearer ", "")`. -/
structure AuthReq where
  cookieAccessToken : Option Tok
  headerBearerToken : Option Tok

/-- The extraction `req.cookies?.accessToken || req.header("Authorization")?.replace(...)`,
followed by the `if (!token)` falsiness guard. -/
def extractAccessToken (r : AuthReq) : Option Tok :=
  let t := if tokFalsy r.cookieAccessToken then r.headerBearerToken else r.cookieAccessToken
  if tokFalsy t then none else t

/-- Model of `verifyJWT`: extract the bearer credential (cookie first, then
header), verify it as an access token, load the account minus secret
fields, and bind it to the request.  Every failure inside the `try` is
rethrown as a 401 with the original message. -/
def verifyJWT (env : Env) (now : Nat) (db : List StoredUser) (r : AuthReq) :
    Except ApiErr UserView :=
  match extractAccessToken r with
  | none => .error ⟨401, "Unauthorized Request"⟩
  | some tok =>
    match jwtVerify tok env.accessTokenSecret now with
    | .error e => .error ⟨401, e.msg⟩
    | .ok payload =>
      match findById db payload.userId with
      | none => .error ⟨401, "Invalid Access Token"⟩
      | some user => .ok (viewMinusPasswordRefresh user)

/-- Request body of `PATCH /update-account`. -/
structure UpdateDetailsReq where
  fullname : Option String
  email : Option String

/-- Success response of the three profile-update endpoints: the updated
user after `.select("-password")`. -/
structure UpdateOk where
  statusCode : Nat
  user : Option UserView
  message : String
deriving DecidableEq

/-- Model of `updateAccountDetails`: require at least one field, then
`findByIdAndUpdate` with `$set: {fullname, email}` (Mongoose strips the
keys whose value is `undefined`), returning the new document minus only
the password. -/
def updateAccountDetails (db : List StoredUser) (userId : Nat)
    (r : UpdateDetailsReq) : List StoredUser × Except ApiErr UpdateOk :=
  if strFalsy r.fullname ∧ strFalsy r.email then
    (db, .error ⟨400, "All fields are required!"⟩)
  else
    match findById db userId with
    | none => (db, .error ⟨400, "Invalid Credentials"⟩)
    | some user =>
      let user1 := { user with
        fullname := r.fullname.getD user.fullname
        email := r.email.getD user.email }
      (saveUser db user1,
        .ok ⟨200, some (viewMinusPassword user1), "Account Details Updated Successfully"⟩)

/-- Model of `updateUserAvatar`: upload the new avatar, then `findByIdAndUpdate`
with `$set: {avatar}`, returning the new document minus only the
password (no null check: a missing account yields a 200 with a null
user). -/
def updateUserAvatar (cloud : String → Option String) (db : List StoredUser)
    (fs : List String) (userId : Nat) (filePath : Option String) :
    List StoredUser × List String × Except ApiErr UpdateOk :=
  match presentStr filePath with
  | none => (db, fs, .error ⟨400, "Avatar file is missing"⟩)
  | some p =>
    let up := uploadOnCloudinary cloud fs (some p)
    match presentStr up.2 with
    | none => (db, up.1, .error ⟨400, "Error while uploading avatar"⟩)
    | some url =>
      match findById db userId with
      | none => (db, up.1, .ok ⟨200, none, "Avatar Updated Successfully"⟩)
      | some user =>
        let user1 := { user with avatar := url }
        (saveUser db user1, up.1,
          .ok ⟨200, some (viewMinusPassword user1), "Avatar Updated Successfully"⟩)

/-- Model of `updateUserCoverImage`: like the avatar update, for the cover image. -/
def updateUserCoverImage (cloud : String → Option String) (db : List StoredUser)
    (fs : List String) (userId : Nat) (filePath : Option String) :
    List StoredUser × List String × Except ApiErr UpdateOk :=
  match presentStr filePath with
  | none => (db, fs, .error ⟨400, "Cover Image file is missing"⟩)
  | some p =>
    let up := uploadOnCloudinary cloud fs (some p)
    match presentStr up.2 with
    | none => (db, up.1, .error ⟨400, "Error while uploading Cover Image"⟩)
    | some url =>
      match findById db userId with
      | none => (db, up.1, .ok ⟨200, none, "Cover Image updated Successfully"⟩)
      | some user =>
        let user1 := { user with coverImage := url }
        (saveUser db user1, up.1,
          .ok ⟨200, some (viewMinusPassword user1), "Cover Image updated Successfully"⟩)

/-! ## Concrete scenario data (the registered account of §8 of the spec) -/

/-- A concrete token configuration. -/
def exEnv : Env :=
  { accessTokenSecret := "access-secret"
    refreshTokenSecret := "refresh-secret"
    accessTokenExpiry := 15
    refreshTokenExpiry := 1000 }

/-- The account `alice` right after registration (no session yet). -/
def exAlice0 : StoredUser :=
  { id := 1
    username := "alice"
    email := "alice@x.com"
    fullname := "Alice A"
    password := bcryptHash "secret123"
    refreshToken := none
    avatar := "http://cdn/avatar.png"
    coverImage := "" }

/-- The access token issued to `alice` at time 10. -/
def exAt : Jwt := generateAccessToken exEnv 10 exAlice0

/-- The refresh token issued to `alice` at time 10. -/
def exRt : Jwt := generateRefreshToken exEnv 10 exAlice0

/-- Account `alice` once the time-10 refresh token has been persisted. -/
def exAlice : StoredUser := { exAlice0 with refreshToken := some exRt }

/-- A one-account collection holding the authenticated `alice`. -/
def exDb : List StoredUser := [exAlice]

/-- The login response `alice` receives at time 10. -/
def exLoginOk : LoginOk :=
  { cookieAccessToken := exAt
    cookieRefreshToken := exRt
    user := some (viewMinusPasswordRefresh exAlice)
    accessToken := exAt
    refreshToken := exRt
    message := "User Logged In Successfully" }

/-! ## Helper lemmas -/

/-- A document found by id carries that id. -/
theorem findById_some_id {db : List StoredUser} {i : Nat} {u : StoredUser}
    (h : findById db i = some u) : u.id = i := by
  unfold findById at h
  simpa using List.find?_some h

/-- Saving a document whose id is already present makes `findById` on
that id return the saved document. -/
theorem findById_saveUser_self {db : List StoredUser} {u1 : StoredUser}
    (h : (findById db u1.id).isSome) :
    findById (saveUser db u1) u1.id = some u1 := by
  induction db with
  | nil => simp [findById] at h
  | cons v tl ih =>
    by_cases hv : v.id = u1.id
    · simp [findById, saveUser, List.find?, hv]
    · have htl : (findById tl u1.id).isSome := by
        simpa [findById, List.find?, hv] using h
      have := ih htl
      simpa [findById, saveUser, List.find?, hv] using this

/-- Updating via `saveUser` does not change which ids are present. -/
theorem findById_saveUser_isSome {db : List StoredUser} {u1 : StoredUser} {i : Nat} :
    (findById (saveUser db u1) i).isSome = (findById db i).isSome := by
  induction db with
  | nil => simp [findById, saveUser]
  | cons v tl ih =>
    by_cases hv : v.id = u1.id
    · by_cases hi : u1.id = i
      · simp [findById, saveUser, List.find?, hv, hi]
      · have hvi : ¬ v.id = i := by rw [hv]; exact hi
        simpa [findById, saveUser, List.find?, hv, hi, hvi] using ih
    · by_cases hvi : v.id = i
      · have hiu : ¬ i = u1.id := by rw [← hvi]; exact hv
        simp [findById, saveUser, List.find?, hv, hvi, hiu]
      · simpa [findById, saveUser, List.find?, hv, hvi] using ih

/-! ## Claims -/

/-- C1: the claim says a successful RefreshSession persists a brand-new
refresh token and delivers that same token in the refreshToken cookie
and the response body.  The code persists the new token but destructures
`newRefreshToken` from an object whose field is named `refreshToken`, so
the value delivered in the cookie and the body is `undefined`, not the
newly stored token: the value delivered does not equal the value stored. -/
theorem C1_refresh_stores_new_token_but_delivers_undefined :
    refreshAccessToken exEnv 50 exDb
        { cookieRefreshToken := some (.jwt exRt), bodyRefreshToken := none } =
      ([{ exAlice with refreshToken := some (generateRefreshToken exEnv 50 exAlice) }],
        .ok { cookieAccessToken := generateAccessToken exEnv 50 exAlice
              cookieRefreshToken := none
              accessToken := generateAccessToken exEnv 50 exAlice
              refreshToken := none
              message := "Access token refreshed successfully" })
    ∧ generateRefreshToken exEnv 50 exAlice ≠ exRt := by
  exact ⟨rfl, by decide⟩

/-- C2: the claim says Logout nulls the stored refresh token and that
the pre-logout refresh token can no longer be used to refresh.  The
logout update is `$set: \x7brefreshToken: undefined\x7d`, which Mongoose
strips to an empty update: the stored token is unchanged, and a
RefreshSession with the pre-logout token still succeeds. -/
theorem C2_logout_leaves_stored_token_usable :
    logoutUser exDb 1 =
      (exDb, .ok ⟨["accessToken", "refreshToken"], 200, "User logged out successfully"⟩)
    ∧ (findById ((logoutUser exDb 1).1) 1).map (fun u => u.refreshToken) = some (some exRt)
    ∧ ∃ ok, (refreshAccessToken exEnv 50 ((logoutUser exDb 1).1)
        { cookieRefreshToken := some (.jwt exRt), bodyRefreshToken := none }).2 = .ok ok := by
  exact ⟨rfl, rfl, ⟨_, rfl⟩⟩

/-- C4: the claim says an invalid-credentials login failure is identical
whether the identifier was unknown or the password wrong.  It is not: an
unknown identifier yields 404 "User does not exist", a wrong password
yields 401 "Invalid User Credentials" — observably different responses. -/
theorem C4_counterexample_login_error_oracle :
    (loginUser exEnv 10 exDb
      { username := some "bob", password := some "secret123", email := some "bob@x.com" }).2 =
      .error ⟨404, "User does not exist"⟩
  ∧ (loginUser exEnv 10 exDb
      { username := some "alice", password := some "wrong-password", email := some "alice@x.com" }).2 =
      .error ⟨401, "Invalid User Credentials"⟩
  ∧ ApiErr.mk 404 "User does not exist" ≠ ApiErr.mk 401 "Invalid User Credentials" := by
  exact ⟨rfl, rfl, by decide⟩

/-- C4 (amended): with at least one identifier given, a login whose
identifier matches no account fails with 404 "User does not exist",
while a matched account with a wrong password fails with 401 "Invalid
User Credentials"; the two failures differ, so the response does reveal
which of the two cases occurred. -/
theorem C4_amended_login_failure_modes
    (env : Env) (now : Nat) (db : List StoredUser) (r : LoginReq)
    (hid : ¬ (strFalsy r.username = true ∧ strFalsy r.email = true)) :
    (findOneByUsernameOrEmail db r.username r.email = none →
        loginUser env now db r = (db, .error ⟨404, "User does not exist"⟩))
  ∧ (∀ u pw, findOneByUsernameOrEmail db r.username r.email = some u →
        r.password = some pw → bcryptCompare pw u.password = false →
        loginUser env now db r = (db, .error ⟨401, "Invalid User Credentials"⟩)) := by
  constructor
  · intro hnone
    unfold loginUser
    rw [if_neg hid, hnone]
  · intro u pw hu hpw hbad
    unfold loginUser
    rw [if_neg hid, hu, hpw]
    simp [hbad]

/-- Witness for C4 (amended): both failure modes at concrete inputs. -/
theorem C4_amended_witness :
    loginUser exEnv 10 exDb
      { username := some "bob", password := some "secret123", email := some "bob@x.com" } =
      (exDb, .error ⟨404, "User does not exist"⟩)
  ∧ loginUser exEnv 10 exDb
      { username := some "alice", password := some "wrong-password", email := some "alice@x.com" } =
      (exDb, .error ⟨401, "Invalid User Credentials"⟩) := by
  refine ⟨(C4_amended_login_failure_modes exEnv 10 exDb _ (by decide)).1 rfl,
    (C4_amended_login_failure_modes exEnv 10 exDb _ (by decide)).2 exAlice "wrong-password"
      rfl rfl (by decide)⟩

/-- C5: the claim says any Register with a missing or blank-after-trim
field, or an email without an at-sign, fails with status 400.  The code
answers 405 for a malformed email, and a missing (undefined) field slips
past the `field?.trim() === ""` check, failing only later at the schema
with a 500-class error — neither failure carries status 400.  (No
account is created in either run.) -/
theorem C5_validation_failures_do_not_carry_400 :
    registerUser (fun p => some ("http://cdn/" ++ p)) [] ["tmp-avatar.png"]
      { username := some "alice", email := some "alice.example.com",
        fullname := some "Alice A", password := some "secret123",
        avatarPath := some "tmp-avatar.png", coverPath := none } =
      ([], ["tmp-avatar.png"], .error ⟨405, "Please enter a valid email address"⟩)
  ∧ registerUser (fun p => some ("http://cdn/" ++ p)) [] ["tmp-avatar.png"]
      { username := some "alice", email := some "alice@x.com",
        fullname := some "Alice A", password := none,
        avatarPath := some "tmp-avatar.png", coverPath := none } =
      ([], ["tmp-avatar.png"], .error ⟨500, "User validation failed"⟩) := by
  exact ⟨rfl, rfl⟩

/-- C8: the claim says a ChangePassword with a wrong old password fails
with status 401.  The code fails with status 400 ("Invalid Old
Password"); the stored hash is indeed left unchanged. -/
theorem C8_counterexample_wrong_old_password_status :
    changeCurrentPassword exDb 1 (some "wrong-password") (some "newpass123") =
      (exDb, .error ⟨400, "Invalid Old Password"⟩)
  ∧ (400 : Nat) ≠ 401 := by
  exact ⟨rfl, by decide⟩

/-- C8 (amended): a ChangePassword whose old password does not verify
against the stored hash fails with status 400 ("Invalid Old Password")
and leaves the store — in particular the stored secretHash — unchanged. -/
theorem C8_amended_wrong_old_password
    (db : List StoredUser) (uid : Nat) (u : StoredUser) (old newPw : String)
    (hu : findById db uid = some u)
    (hbad : bcryptCompare old u.password = false) :
    changeCurrentPassword db uid (some old) (some newPw) =
      (db, .error ⟨400, "Invalid Old Password"⟩) := by
  unfold changeCurrentPassword
  rw [hu]
  simp [hbad]

/-- Witness for C8 (amended) at a concrete wrong old password. -/
theorem C8_amended_witness :
    changeCurrentPassword exDb 1 (some "wrong-password") (some "newpass456") =
      (exDb, .error ⟨400, "Invalid Old Password"⟩) :=
  C8_amended_wrong_old_password exDb 1 exAlice "wrong-password" "newpass456" rfl rfl

/-- C9: a successful ChangePassword replaces only the user's stored
password hash: the resulting store is exactly the old one with that
user's password field re-hashed, and the stored refresh token — hence
any refresh token issued before the change — is untouched. -/
theorem C9_change_password_only_rehashes
    (db : List StoredUser) (uid : Nat) (u : StoredUser) (old newPw : String)
    (hu : findById db uid = some u)
    (hok : bcryptCompare old u.password = true) :
    changeCurrentPassword db uid (some old) (some newPw) =
      (saveUser db { u with password := bcryptHash newPw },
        .ok ⟨200, "Password Changed Successfully"⟩)
  ∧ (findById (saveUser db { u with password := bcryptHash newPw }) uid).map
      (fun w => w.refreshToken) = some u.refreshToken := by
  constructor
  · unfold changeCurrentPassword
    rw [hu]
    simp [hok]
  · have hid0 : u.id = uid := findById_some_id hu
    subst hid0
    have hsome : (findById db u.id).isSome := by rw [hu]; rfl
    have hfind : findById (saveUser db { u with password := bcryptHash newPw }) u.id =
        some { u with password := bcryptHash newPw } :=
      findById_saveUser_self hsome
    rw [hfind]
    rfl

/-- Witness for C9 at a concrete successful password change. -/
theorem C9_witness :
    changeCurrentPassword exDb 1 (some "secret123") (some "newpass123") =
      (saveUser exDb { exAlice with password := bcryptHash "newpass123" },
        .ok ⟨200, "Password Changed Successfully"⟩)
  ∧ (findById (saveUser exDb { exAlice with password := bcryptHash "newpass123" }) 1).map
      (fun w => w.refreshToken) = some exAlice.refreshToken :=
  C9_change_password_only_rehashes exDb 1 exAlice "secret123" "newpass123" rfl rfl

/-- C6: a Register whose username or email matches an existing account
fails with 409 Conflict, creates no account, and removes the uploaded
avatar and cover-image temp files before the error is surfaced. -/
theorem C6_register_duplicate_conflict_cleans_up
    (cloud : String → Option String) (db : List StoredUser) (fs : List String)
    (r : RegisterReq) (e ap : String)
    (hvalid : someEmptyAfterTrim r = false)
    (hemail : r.email = some e)
    (hat : jsIncludesChar e '@' = true)
    (hdup : existsByUsernameOrEmail db r.username (some e) = true)
    (hap : presentStr r.avatarPath = some ap)
    (hapfs : ap ∈ fs)
    (hcp : ∀ cp, presentStr r.coverPath = some cp → cp ∈ fs ∧ cp ≠ ap) :
    ∃ fs1, registerUser cloud db fs r =
        (db, fs1, .error ⟨409, "User with email or username already exists"⟩)
      ∧ ap ∉ fs1
      ∧ ∀ cp, presentStr r.coverPath = some cp → cp ∉ fs1 := by
  have hstep : registerUser cloud db fs r =
      registerCleanupConflict db fs r.avatarPath r.coverPath := by
    unfold registerUser
    rw [hemail]
    simp [hvalid, hat, hdup]
  have h1 : unlinkSync fs ap = .ok (fs.filter (fun q => q ≠ ap)) := by
    unfold unlinkSync
    rw [if_pos hapfs]
  rw [hstep]
  unfold registerCleanupConflict
  rw [hap]
  dsimp only
  rw [h1]
  dsimp only
  cases hcpv : presentStr r.coverPath with
  | none =>
    refine ⟨fs.filter (fun q => q ≠ ap), rfl, ?_, ?_⟩
    · simp [List.mem_filter]
    · intro cp hcp2
      exact Option.noConfusion hcp2
  | some cp =>
    obtain ⟨hcpfs, hcpne⟩ := hcp cp hcpv
    have hcpfs1 : cp ∈ fs.filter (fun q => q ≠ ap) := by
      simp [List.mem_filter, hcpfs, hcpne]
    have h2 : unlinkSync (fs.filter (fun q => q ≠ ap)) cp =
        .ok ((fs.filter (fun q => q ≠ ap)).filter (fun q => q ≠ cp)) := by
      unfold unlinkSync
      rw [if_pos hcpfs1]
    dsimp only
    rw [h2]
    refine ⟨(fs.filter (fun q => q ≠ ap)).filter (fun q => q ≠ cp), rfl, ?_, ?_⟩
    · simp [List.mem_filter]
    · intro cp2 hcp2
      have hcpeq : cp2 = cp := by
        exact (Option.some.injEq cp cp2).mp hcp2 |>.symm
      subst hcpeq
      simp [List.mem_filter]

/-- Witness for C6: a duplicate-email registration attempt with both
temp files on disk is rejected with 409 and both files are removed. -/
theorem C6_witness :
    ∃ fs1, registerUser (fun p => some ("http://cdn/" ++ p)) exDb
        ["tmp-av.png", "tmp-cov.png"]
        { username := some "alice2", email := some "alice@x.com",
          fullname := some "Alice B", password := some "pw123456",
          avatarPath := some "tmp-av.png", coverPath := some "tmp-cov.png" } =
        (exDb, fs1, .error ⟨409, "User with email or username already exists"⟩)
      ∧ "tmp-av.png" ∉ fs1
      ∧ ∀ cp, presentStr (some "tmp-cov.png") = some cp → cp ∉ fs1 :=
  C6_register_duplicate_conflict_cleans_up (fun p => some ("http://cdn/" ++ p)) exDb
    ["tmp-av.png", "tmp-cov.png"]
    { username := some "alice2", email := some "alice@x.com",
      fullname := some "Alice B", password := some "pw123456",
      avatarPath := some "tmp-av.png", coverPath := some "tmp-cov.png" }
    "alice@x.com" "tmp-av.png" (by decide) rfl (by decide) (by decide) rfl (by decide)
    (by
      intro cp h
      have hcp : cp = "tmp-cov.png" := by
        simpa [presentStr] using h.symm
      subst hcp
      exact ⟨by decide, by decide⟩)

/-- C7: the request authenticator takes the access token from the
cookie first and falls back to the bearer header; it answers 401 when
the credential is absent, when token verification fails for any reason,
and when the account named by the verified claims no longer exists; on
success it binds the account loaded without its password and
refreshToken fields. -/
theorem C7_verifyJWT_contract (env : Env) (now : Nat) (db : List StoredUser) (r : AuthReq) :
    (tokFalsy r.cookieAccessToken = false → extractAccessToken r = r.cookieAccessToken)
  ∧ (tokFalsy r.cookieAccessToken = true → tokFalsy r.headerBearerToken = false →
      extractAccessToken r = r.headerBearerToken)
  ∧ (extractAccessToken r = none →
      verifyJWT env now db r = .error ⟨401, "Unauthorized Request"⟩)
  ∧ (∀ tok e, extractAccessToken r = some tok →
      jwtVerify tok env.accessTokenSecret now = .error e →
      verifyJWT env now db r = .error ⟨401, e.msg⟩)
  ∧ (∀ tok p, extractAccessToken r = some tok →
      jwtVerify tok env.accessTokenSecret now = .ok p →
      findById db p.userId = none →
      verifyJWT env now db r = .error ⟨401, "Invalid Access Token"⟩)
  ∧ (∀ tok p u, extractAccessToken r = some tok →
      jwtVerify tok env.accessTokenSecret now = .ok p →
      findById db p.userId = some u →
      verifyJWT env now db r = .ok (viewMinusPasswordRefresh u)
        ∧ (viewMinusPasswordRefresh u).password = none
        ∧ (viewMinusPasswordRefresh u).refreshToken = none) := by
  refine ⟨?_, ?_, ?_, ?_, ?_, ?_⟩
  · intro hc
    simp [extractAccessToken, hc]
  · intro hc hh
    simp [extractAccessToken, hc, hh]
  · intro hext
    unfold verifyJWT
    rw [hext]
  · intro tok e hext hverr
    unfold verifyJWT
    rw [hext]
    dsimp only
    rw [hverr]
  · intro tok p hext hvok hnone
    unfold verifyJWT
    rw [hext]
    dsimp only
    rw [hvok]
    dsimp only
    rw [hnone]
  · intro tok p u hext hvok hsome
    refine ⟨?_, rfl, rfl⟩
    unfold verifyJWT
    rw [hext]
    dsimp only
    rw [hvok]
    dsimp only
    rw [hsome]

/-- Witness for C7: a valid cookie-borne access token authenticates
`alice` and binds her record without password and refreshToken. -/
theorem C7_witness :
    verifyJWT exEnv 12 exDb
        { cookieAccessToken := some (.jwt exAt), headerBearerToken := none } =
      .ok (viewMinusPasswordRefresh exAlice)
    ∧ (viewMinusPasswordRefresh exAlice).password = none
    ∧ (viewMinusPasswordRefresh exAlice).refreshToken = none :=
  (C7_verifyJWT_contract exEnv 12 exDb
      { cookieAccessToken := some (.jwt exAt), headerBearerToken := none }).2.2.2.2.2
    (.jwt exAt) (.access 1 "alice@x.com" "alice" "Alice A") exAlice rfl rfl rfl

/-- Shape of a successful login: the matched account `u`, the document
`w` actually loaded by id inside the token generator, the persisted
rotation, and the delivered tokens. -/
theorem loginUser_ok_shape
    (env : Env) (now : Nat) (db db1 : List StoredUser) (r : LoginReq) (l : LoginOk)
    (h : loginUser env now db r = (db1, .ok l)) :
    ∃ u w, findOneByUsernameOrEmail db r.username r.email = some u
      ∧ findById db u.id = some w
      ∧ db1 = saveUser db { w with refreshToken := some (generateRefreshToken env now w) }
      ∧ l.refreshToken = generateRefreshToken env now w
      ∧ l.accessToken = generateAccessToken env now w
      ∧ l.user = (findById db1 u.id).map viewMinusPasswordRefresh := by
  unfold loginUser at h
  split at h
  · simp at h
  · split at h
    · simp at h
    · rename_i u hfound
      split at h
      · simp at h
      · split at h
        · simp at h
        · split at h
          · simp at h
          · rename_i db1a gen hgen
            unfold generateAccessAndRefreshTokens at hgen
            split at hgen
            · simp at hgen
            · rename_i w hw
              simp only [Prod.mk.injEq, Except.ok.injEq] at hgen h
              obtain ⟨hdb1a, hgen2⟩ := hgen
              obtain ⟨hdb1, hl⟩ := h
              refine ⟨u, w, hfound, hw, ?_, ?_, ?_, ?_⟩
              · rw [← hdb1, ← hdb1a]
              · rw [← hl, ← hgen2]
              · rw [← hl, ← hgen2]
              · rw [← hl, ← hdb1]

/-- The duplicate-account cleanup branch of `registerUser` never
produces a success value. -/
theorem registerCleanupConflict_not_ok
    (db : List StoredUser) (fs : List String) (a c : Option String)
    (db1 : List StoredUser) (fs1 : List String) (ok : RegisterOk) :
    registerCleanupConflict db fs a c ≠ (db1, fs1, .ok ok) := by
  intro h
  unfold registerCleanupConflict at h
  split at h <;> (try split at h) <;> (try split at h) <;> (try split at h) <;> simp at h

/-- C10: the three profile-update endpoints strip only the password
from the user object they return, so the stored refreshToken is exposed
in their response payloads — unlike Register, Login and the request
authenticator, whose user objects exclude both password and
refreshToken. -/
theorem C10_update_responses_expose_refreshToken :
    (∀ db uid r db1 ok, updateAccountDetails db uid r = (db1, .ok ok) →
      ∀ v, ok.user = some v → v.password = none
        ∧ ∃ u, findById db uid = some u ∧ v.refreshToken = some u.refreshToken)
  ∧ (∀ cloud db fs uid p db1 fs1 ok, updateUserAvatar cloud db fs uid p = (db1, fs1, .ok ok) →
      ∀ v, ok.user = some v → v.password = none
        ∧ ∃ u, findById db uid = some u ∧ v.refreshToken = some u.refreshToken)
  ∧ (∀ cloud db fs uid p db1 fs1 ok, updateUserCoverImage cloud db fs uid p = (db1, fs1, .ok ok) →
      ∀ v, ok.user = some v → v.password = none
        ∧ ∃ u, findById db uid = some u ∧ v.refreshToken = some u.refreshToken)
  ∧ (∀ cloud db fs r db1 fs1 ok, registerUser cloud db fs r = (db1, fs1, .ok ok) →
      ok.user.password = none ∧ ok.user.refreshToken = none)
  ∧ (∀ env now db r db1 ok, loginUser env now db r = (db1, .ok ok) →
      ∀ v, ok.user = some v → v.password = none ∧ v.refreshToken = none)
  ∧ (∀ env now db r v, verifyJWT env now db r = .ok v →
      v.password = none ∧ v.refreshToken = none) := by
  refine ⟨?_, ?_, ?_, ?_, ?_, ?_⟩
  · intro db uid r db1 ok h v hv
    unfold updateAccountDetails at h
    split at h
    · simp at h
    · split at h
      · simp at h
      · rename_i user heq
        simp only [Prod.mk.injEq, Except.ok.injEq] at h
        obtain ⟨-, h2⟩ := h
        subst h2
        simp only [Option.some.injEq] at hv
        subst hv
        exact ⟨rfl, user, heq, rfl⟩
  · intro cloud db fs uid p db1 fs1 ok h v hv
    unfold updateUserAvatar at h
    rcases hp : presentStr p with _ | pp
    · rw [hp] at h
      simp at h
    · rw [hp] at h
      dsimp only at h
      rcases hup : presentStr (uploadOnCloudinary cloud fs (some pp)).2 with _ | url
      · rw [hup] at h
        simp at h
      · rw [hup] at h
        dsimp only at h
        rcases hfb : findById db uid with _ | user
        · rw [hfb] at h
          simp only [Prod.mk.injEq, Except.ok.injEq] at h
          obtain ⟨-, -, h3⟩ := h
          subst h3
          simp at hv
        · rw [hfb] at h
          simp only [Prod.mk.injEq, Except.ok.injEq] at h
          obtain ⟨-, -, h3⟩ := h
          subst h3
          simp only [Option.some.injEq] at hv
          subst hv
          exact ⟨rfl, user, rfl, rfl⟩
  · intro cloud db fs uid p db1 fs1 ok h v hv
    unfold updateUserCoverImage at h
    rcases hp : presentStr p with _ | pp
    · rw [hp] at h
      simp at h
    · rw [hp] at h
      dsimp only at h
      rcases hup : presentStr (uploadOnCloudinary cloud fs (some pp)).2 with _ | url
      · rw [hup] at h
        simp at h
      · rw [hup] at h
        dsimp only at h
        rcases hfb : findById db uid with _ | user
        · rw [hfb] at h
          simp only [Prod.mk.injEq, Except.ok.injEq] at h
          obtain ⟨-, -, h3⟩ := h
          subst h3
          simp at hv
        · rw [hfb] at h
          simp only [Prod.mk.injEq, Except.ok.injEq] at h
          obtain ⟨-, -, h3⟩ := h
          subst h3
          simp only [Option.some.injEq] at hv
          subst hv
          exact ⟨rfl, user, rfl, rfl⟩
  · intro cloud db fs r db1 fs1 ok h
    unfold registerUser at h
    split at h
    · simp at h
    · split at h
      · simp at h
      · split at h
        · simp at h
        · split at h
          · exact absurd h (registerCleanupConflict_not_ok _ _ _ _ _ _ _)
          · split at h
            · simp at h
            · rename_i ap hap
              dsimp only at h
              rcases hup : (uploadOnCloudinary cloud fs (some ap)).2 with _ | url
              · rw [hup] at h
                simp at h
              · rw [hup] at h
                dsimp only at h
                split at h
                · simp only [Prod.mk.injEq, Except.ok.injEq] at h
                  obtain ⟨-, -, h3⟩ := h
                  subst h3
                  exact ⟨rfl, rfl⟩
                · simp at h
  · intro env now db r db1 ok h v hv
    obtain ⟨u, w, -, -, -, -, -, huser⟩ := loginUser_ok_shape env now db db1 r ok h
    rw [huser] at hv
    obtain ⟨w1, -, hw1⟩ := Option.map_eq_some'.mp hv
    subst hw1
    exact ⟨rfl, rfl⟩
  · intro env now db r v h
    unfold verifyJWT at h
    split at h
    · simp at h
    · split at h
      · simp at h
      · split at h
        · simp at h
        · simp only [Except.ok.injEq] at h
          subst h
          exact ⟨rfl, rfl⟩

/-- Witness for C10: a concrete successful UpdateProfile on `alice`
returns her record with the stored refreshToken present. -/
theorem C10_witness :
    (viewMinusPassword { exAlice with fullname := "Alice B" }).password = none
  ∧ ∃ u, findById exDb 1 = some u
      ∧ (viewMinusPassword { exAlice with fullname := "Alice B" }).refreshToken =
          some u.refreshToken :=
  C10_update_responses_expose_refreshToken.1 exDb 1
    { fullname := some "Alice B", email := none }
    (saveUser exDb { exAlice with fullname := "Alice B" })
    ⟨200, some (viewMinusPassword { exAlice with fullname := "Alice B" }),
      "Account Details Updated Successfully"⟩
    rfl (viewMinusPassword { exAlice with fullname := "Alice B" }) rfl

/-- A RefreshSession presenting the token that is stored on the account
(signed with the refresh key, naming the account, unexpired) succeeds
and persists a freshly generated refresh token in its place. -/
theorem refreshAccessToken_rotates
    (env : Env) (now2 : Nat) (db1 : List StoredUser) (rt1 : Jwt) (w1 : StoredUser)
    (hkey : rt1.key = env.refreshTokenSecret)
    (hpay : rt1.payload = .refresh w1.id)
    (hexp : ¬ rt1.exp ≤ now2)
    (hfind : findById db1 w1.id = some w1)
    (hstored : w1.refreshToken = some rt1) :
    refreshAccessToken env now2 db1
        { cookieRefreshToken := some (.jwt rt1), bodyRefreshToken := none } =
      (saveUser db1 { w1 with refreshToken := some (generateRefreshToken env now2 w1) },
        .ok { cookieAccessToken := generateAccessToken env now2 w1
              cookieRefreshToken := none
              accessToken := generateAccessToken env now2 w1
              refreshToken := none
              message := "Access token refreshed successfully" }) := by
  unfold refreshAccessToken
  have hinc : incomingRefresh
      { cookieRefreshToken := some (.jwt rt1), bodyRefreshToken := none } = some (.jwt rt1) := rfl
  rw [hinc]
  dsimp only
  have hv : jwtVerify (.jwt rt1) env.refreshTokenSecret now2 = .ok (.refresh w1.id) := by
    unfold jwtVerify
    dsimp only
    rw [hkey, hpay]
    simp [hexp]
  rw [hv]
  dsimp only [TokenPayload.userId]
  rw [hfind]
  dsimp only
  rw [if_neg (show ¬ ¬ (tokEqStored (.jwt rt1) w1.refreshToken = true) by
    simp [tokEqStored, hstored])]
  have hgen : generateAccessAndRefreshTokens env now2 db1 w1.id =
      (saveUser db1 { w1 with refreshToken := some (generateRefreshToken env now2 w1) },
        .ok ⟨generateAccessToken env now2 w1, generateRefreshToken env now2 w1⟩) := by
    unfold generateAccessAndRefreshTokens
    rw [hfind]
  rw [hgen]

/-- A RefreshSession presenting a well-signed token naming an existing
account that does not match the account's stored refresh token fails
with a 401 (either "jwt expired" or the rotation guard's message). -/
theorem refreshAccessToken_stale_fails
    (env : Env) (now : Nat) (db : List StoredUser) (rt1 : Jwt) (w : StoredUser)
    (hkey : rt1.key = env.refreshTokenSecret)
    (hpay : rt1.payload = .refresh w.id)
    (hfind : findById db w.id = some w)
    (hstale : w.refreshToken ≠ some rt1) :
    ∃ err, (refreshAccessToken env now db
        { cookieRefreshToken := some (.jwt rt1), bodyRefreshToken := none }).2 =
      .error err ∧ err.statusCode = 401 := by
  have hinc : incomingRefresh
      { cookieRefreshToken := some (.jwt rt1), bodyRefreshToken := none } = some (.jwt rt1) := rfl
  by_cases hexp : rt1.exp ≤ now
  · refine ⟨⟨401, JwtError.expired.msg⟩, ?_, rfl⟩
    unfold refreshAccessToken
    rw [hinc]
    dsimp only
    have hv : jwtVerify (.jwt rt1) env.refreshTokenSecret now = .error .expired := by
      unfold jwtVerify
      dsimp only
      rw [hkey]
      simp [hexp]
    rw [hv]
  · refine ⟨⟨401, "Refresh Token is Expired or Already Used"⟩, ?_, rfl⟩
    unfold refreshAccessToken
    rw [hinc]
    dsimp only
    have hv : jwtVerify (.jwt rt1) env.refreshTokenSecret now = .ok (.refresh w.id) := by
      unfold jwtVerify
      dsimp only
      rw [hkey, hpay]
      simp [hexp]
    rw [hv]
    dsimp only [TokenPayload.userId]
    rw [hfind]
    dsimp only
    rw [if_pos (show ¬ (tokEqStored (.jwt rt1) w.refreshToken = true) by
      intro htok
      apply hstale
      cases hrt : w.refreshToken with
      | none => rw [hrt] at htok; simp [tokEqStored] at htok
      | some t =>
        rw [hrt] at htok
        simp [tokEqStored] at htok
        rw [htok])]

/-- C3: a successful Login stores the refresh token it returns;
refreshing with that token at a later time succeeds (and rotates the
stored token), after which any further RefreshSession presenting the
original token fails with a 401. -/
theorem C3_login_refresh_rotation
    (env : Env) (db db1 : List StoredUser) (now1 now2 now3 : Nat)
    (r : LoginReq) (l : LoginOk)
    (hlogin : loginUser env now1 db r = (db1, .ok l))
    (hfresh : now2 < now1 + env.refreshTokenExpiry)
    (hne : now1 ≠ now2) :
    (findById db1 l.refreshToken.payload.userId).map (fun u => u.refreshToken) =
        some (some l.refreshToken)
  ∧ ∃ db2 ok, refreshAccessToken env now2 db1
        { cookieRefreshToken := some (.jwt l.refreshToken), bodyRefreshToken := none } =
        (db2, .ok ok)
      ∧ ∃ err, (refreshAccessToken env now3 db2
            { cookieRefreshToken := some (.jwt l.refreshToken), bodyRefreshToken := none }).2 =
          .error err ∧ err.statusCode = 401 := by
  obtain ⟨u, w, hfound, hw, hdb1, hrt, hat, huser⟩ :=
    loginUser_ok_shape env now1 db db1 r l hlogin
  subst hdb1
  have hwid : w.id = u.id := findById_some_id hw
  have hsome1 : (findById db
      ({ w with refreshToken := some (generateRefreshToken env now1 w) } : StoredUser).id).isSome := by
    show (findById db w.id).isSome
    rw [hwid, hw]
    rfl
  have hfind1 : findById
      (saveUser db { w with refreshToken := some (generateRefreshToken env now1 w) }) w.id =
      some { w with refreshToken := some (generateRefreshToken env now1 w) } :=
    findById_saveUser_self hsome1
  rw [hrt]
  constructor
  · have hidx : (generateRefreshToken env now1 w).payload.userId = w.id := rfl
    rw [hidx, hfind1]
    rfl
  · have hrefresh := refreshAccessToken_rotates env now2
      (saveUser db { w with refreshToken := some (generateRefreshToken env now1 w) })
      (generateRefreshToken env now1 w)
      { w with refreshToken := some (generateRefreshToken env now1 w) }
      rfl rfl (show ¬ now1 + env.refreshTokenExpiry ≤ now2 by omega) hfind1 rfl
    refine ⟨_, _, hrefresh, ?_⟩
    have hsome2 : (findById
        (saveUser db { w with refreshToken := some (generateRefreshToken env now1 w) })
        ({ { w with refreshToken := some (generateRefreshToken env now1 w) } with
            refreshToken := some (generateRefreshToken env now2
              { w with refreshToken := some (generateRefreshToken env now1 w) }) } : StoredUser).id).isSome := by
      show (findById
        (saveUser db { w with refreshToken := some (generateRefreshToken env now1 w) }) w.id).isSome
      rw [hfind1]
      rfl
    have hfind2 := findById_saveUser_self hsome2
    have hstale : ({ { w with refreshToken := some (generateRefreshToken env now1 w) } with
        refreshToken := some (generateRefreshToken env now2
          { w with refreshToken := some (generateRefreshToken env now1 w) }) } : StoredUser).refreshToken ≠
        some (generateRefreshToken env now1 w) := by
      show some (generateRefreshToken env now2
          { w with refreshToken := some (generateRefreshToken env now1 w) }) ≠
        some (generateRefreshToken env now1 w)
      intro hcontra
      have h1 : generateRefreshToken env now2
          { w with refreshToken := some (generateRefreshToken env now1 w) } =
          generateRefreshToken env now1 w := by
        exact Option.some.inj hcontra
      have h2 : now2 = now1 := congrArg Jwt.iat h1
      exact hne h2.symm
    refine refreshAccessToken_stale_fails env now3 _ (generateRefreshToken env now1 w) _
      rfl ?_ hfind2 hstale
    rfl

/-- Witness for C3: `alice` logs in at time 10, refreshes successfully
with the returned token at time 50, and a replay of that original token
at time 60 is rejected with a 401. -/
theorem C3_witness :
    (findById [exAlice] exLoginOk.refreshToken.payload.userId).map (fun u => u.refreshToken) =
        some (some exLoginOk.refreshToken)
  ∧ ∃ db2 ok, refreshAccessToken exEnv 50 [exAlice]
        { cookieRefreshToken := some (.jwt exLoginOk.refreshToken), bodyRefreshToken := none } =
        (db2, .ok ok)
      ∧ ∃ err, (refreshAccessToken exEnv 60 db2
            { cookieRefreshToken := some (.jwt exLoginOk.refreshToken), bodyRefreshToken := none }).2 =
          .error err ∧ err.statusCode = 401 :=
  C3_login_refresh_rotation exEnv [exAlice0] [exAlice] 10 50 60
    { username := some "alice", password := some "secret123", email := none }
    exLoginOk rfl (by decide) (by decide)
